import Mathlib

/-!
Shallow embedding of the screen-time accounting and safety-alerting core of
the plp-platform repository (Express + Mongoose backend), together with
theorems settling the spec claims about it.

Persistent collections are modelled as association lists keyed by numeric
document ids; Mongo `Date` values are modelled as natural numbers
(milliseconds where durations matter, calendar-day indices where only
`toDateString` equality matters).  Every definition is translated from the
JavaScript source.  Mongoose runs schema validators on `save`; the numeric
validators of the schemas involved are modelled explicitly and a failing
save surfaces as the route's catch-all 500 while leaving the stored
document unchanged.
-/

namespace PLP

/-! ## Association-list store primitives (Mongo findById / save by id) -/

/-- Mongo findById / findOne on a collection keyed by a numeric id. -/
def alFind {α : Type} : List (Nat × α) → Nat → Option α
  | [], _ => none
  | (k, v) :: t, key => if k = key then some v else alFind t key

/-- Mongo save of a document back into its collection (replace by key). -/
def alSet {α : Type} : List (Nat × α) → Nat → α → List (Nat × α)
  | [], _, _ => []
  | (k, v) :: t, key, v' =>
      if k = key then (k, v') :: t else (k, v) :: alSet t key v'

theorem alFind_alSet_self {α : Type} (l : List (Nat × α)) (key : Nat) (v v₀ : α)
    (h : alFind l key = some v₀) : alFind (alSet l key v) key = some v := by
  induction l with
  | nil => simp [alFind] at h
  | cons hd t ih =>
    obtain ⟨k, w⟩ := hd
    by_cases hk : k = key
    · subst hk; simp [alFind, alSet]
    · simp [alFind, alSet, hk] at h ⊢
      exact ih h

theorem alFind_alSet_ne {α : Type} (l : List (Nat × α)) (key key' : Nat) (v : α)
    (h : key' ≠ key) : alFind (alSet l key v) key' = alFind l key' := by
  induction l with
  | nil => simp [alSet]
  | cons hd t ih =>
    obtain ⟨k, w⟩ := hd
    by_cases hk : k = key
    · subst hk
      have hkk : ¬(k = key') := fun hc => h hc.symm
      simp [alFind, alSet, hkk]
    · simp [alFind, alSet, hk]
      split <;> simp [ih]

/-! ## Threat dictionary and content scanner (SafetyThreatDictionary.js) -/

inductive Severity
  | Low
  | Medium
  | High
deriving DecidableEq, Repr

inductive Category
  | Cyberbullying
  | ExplicitContent
  | PersonalInfo
  | Violence
  | Other
deriving DecidableEq, Repr

inductive AlertType
  | Cyberbullying
  | ExplicitContent
  | ScreenTime
  | TimeExtensionRequest
  | Other
deriving DecidableEq, Repr

/-- A SafetyThreatDictionary document. -/
structure ThreatEntry where
  keyword : List Char
  severity : Severity
  category : Category
  isActive : Bool
deriving DecidableEq, Repr

/-- One element of the list returned by `checkContent`. -/
structure ThreatMatch where
  keyword : List Char
  severity : Severity
  category : Category
deriving DecidableEq, Repr

/-- JS `String.prototype.toLowerCase` restricted to the character sequence. -/
def lowerChars (s : List Char) : List Char := s.map Char.toLower

/-- Whether `pat` is an initial segment of `hay` (helper for `containsSub`). -/
def startsWithChars : List Char → List Char → Bool
  | _, [] => true
  | [], _ :: _ => false
  | a :: as, b :: bs => a = b && startsWithChars as bs

/-- JS `hay.includes(pat)`: substring occurrence. -/
def containsSub : List Char → List Char → Bool
  | hay, pat =>
    if startsWithChars hay pat then true
    else
      match hay with
      | [] => false
      | _ :: t => containsSub t pat

/-- Embedding of `safetyThreatDictionarySchema.statics.checkContent`: scans `content`
against every active dictionary entry, collecting matches in dictionary
order via case-lowered substring search. -/
def checkContent (dict : List ThreatEntry) (content : List Char) :
    List ThreatMatch :=
  let contentLower := lowerChars content
  (dict.filter (fun t => t.isActive)).filterMap fun t =>
    if containsSub contentLower t.keyword then
      some { keyword := t.keyword, severity := t.severity, category := t.category }
    else none

/-- The numeric severity order used by `getHighestSeverity`. -/
def sevRank : Severity → Nat
  | .High => 3
  | .Medium => 2
  | .Low => 1

/-- Loop body of `getHighestSeverity`: start from `threats[0]`, keep the
strictly higher-ranked match. -/
def highestSevCore (t0 : ThreatMatch) (rest : List ThreatMatch) : Severity :=
  ((t0 :: rest).foldl
    (fun acc t => if sevRank acc.severity < sevRank t.severity then t else acc)
    t0).severity

/-- Embedding of `safetyThreatDictionarySchema.statics.getHighestSeverity`: null on an
empty list, otherwise the highest severity among the matches. -/
def getHighestSeverity : List ThreatMatch → Option Severity
  | [] => none
  | t0 :: rest => some (highestSevCore t0 rest)

/-! ## Child profile and time accounting (ChildProfile model) -/

/-- A ChildProfile document.  `id` is the Mongo `_id` of the profile
document itself; `childId` references the child's User.  Dates are calendar
day indices (`lastTimeReset`); minute counters are integers. -/
structure ChildProfile where
  id : Nat
  childId : Nat
  knowledgePoints : Int
  achievements : List String
  timeLimitMinutes : Int
  timeUsedToday : Int
  lastTimeReset : Nat
  guardianId : Option Nat
  totalGamesPlayed : Nat
  totalTimeSpent : Int
deriving DecidableEq, Repr

/-- Embedding of `childProfileSchema.methods.resetDailyTime`: zero the daily counter when
the stored reset date is on a different calendar day than today. -/
def resetDailyTime (p : ChildProfile) (today : Nat) : ChildProfile :=
  if today ≠ p.lastTimeReset then
    { p with timeUsedToday := 0, lastTimeReset := today }
  else p

/-- Result value of `addTimeUsed`. -/
structure TimeUsedResult where
  timeUsedToday : Int
  timeRemaining : Int
deriving DecidableEq, Repr

/-- Embedding of `childProfileSchema.methods.addTimeUsed`: adds minutes to the daily and
lifetime counters without clamping to the limit. -/
def addTimeUsed (p : ChildProfile) (minutes : Int) :
    ChildProfile × TimeUsedResult :=
  let p' := { p with
    timeUsedToday := p.timeUsedToday + minutes
    totalTimeSpent := p.totalTimeSpent + minutes }
  (p', { timeUsedToday := p'.timeUsedToday
         timeRemaining := max 0 (p'.timeLimitMinutes - p'.timeUsedToday) })

/-- The status object returned by `checkTimeLimit` when the profile exists. -/
structure TimeStatus where
  allowed : Bool
  timeRemaining : Int
  timeLimitMinutes : Int
  timeUsedToday : Int
deriving DecidableEq, Repr

/-- Embedding of `childProfileSchema.statics.checkTimeLimit`, profile-found branch: run
the daily reset, then report remaining time; allowed iff remaining > 0.
Returns the status together with the (possibly reset) stored profile. -/
def checkTimeLimitFound (p : ChildProfile) (today : Nat) :
    TimeStatus × ChildProfile :=
  let p' := resetDailyTime p today
  let remaining := p'.timeLimitMinutes - p'.timeUsedToday
  ({ allowed := decide (0 < remaining)
     timeRemaining := remaining
     timeLimitMinutes := p'.timeLimitMinutes
     timeUsedToday := p'.timeUsedToday }, p')

/-- Outcome of the `checkScreenTime` middleware for a child request. -/
inductive GateResult
  | allowed (status : TimeStatus)
  | blocked
deriving DecidableEq, Repr

/-- Embedding of the `checkScreenTime` middleware (validators.js): blocks with 403 when the
time status says the child is not allowed, otherwise lets the request
proceed carrying the status. -/
def checkScreenTime (p : ChildProfile) (today : Nat) :
    GateResult × ChildProfile :=
  let r := checkTimeLimitFound p today
  if r.1.allowed then (.allowed r.1, r.2) else (.blocked, r.2)

/-! ## Session ledger (GameSession.js and the completion route of child.js) -/

/-- A GameSession document.  Times are in milliseconds. -/
structure GameSession where
  childId : Nat
  gameId : Nat
  scoreRaw : Int
  kpEarned : Int
  startTime : Nat
  endTime : Option Nat
  questionsAnswered : Int
  correctAnswers : Int
  hintsUsed : Int
  badgeEarned : Option String
  isCompleted : Bool
deriving DecidableEq, Repr

/-- A KnowledgePointsTransaction document (the points ledger entry). -/
structure KnowledgePointsTransaction where
  childId : Nat
  points : Int
  reason : String
deriving DecidableEq, Repr

/-- A TimeUsageLog document created by the completion route. -/
structure TimeUsageLog where
  childId : Nat
  durationMinutes : Int
  gameId : Nat
deriving DecidableEq, Repr

/-- Play-statistics fields of a SeriousGame document (SeriousGame.js).
The JS number `averageScore` is modelled over the rationals, i.e. without
floating-point rounding; no claim depends on its rounding. -/
structure SeriousGame where
  totalPlays : Nat
  averageScore : Rat
deriving DecidableEq, Repr

/-- Embedding of `seriousGameSchema.methods.recordPlay`:
newAverageScore = (averageScore * totalPlays + score) / (totalPlays + 1),
totalPlays incremented. -/
def recordPlay (g : SeriousGame) (score : Int) : SeriousGame :=
  { totalPlays := g.totalPlays + 1
    averageScore := (g.averageScore * g.totalPlays + score) / (g.totalPlays + 1) }

/-- JS truthiness of an optional string (null and the empty string are
falsy). -/
def truthyStr : Option String → Bool
  | none => false
  | some s => s ≠ ""

/-- JS Math.round of `ms / 60000` for a non-negative millisecond count. -/
def jsRound60000 (ms : Nat) : Nat := (ms + 30000) / 60000

/-- JS Math.ceil of `ms / 60000` for a non-negative millisecond count. -/
def jsCeil60000 (ms : Nat) : Nat := (ms + 59999) / 60000

/-- Embedding of the `durationMinutes` virtual of gameSessionSchema:
Math.round((endTime - startTime) / 60000) when both times exist, else 0. -/
def durationMinutes (s : GameSession) : Nat :=
  match s.endTime with
  | some e => jsRound60000 (e - s.startTime)
  | none => 0

/-- Field assignment part of `gameSessionSchema.methods.complete` (before
its save): record the client-reported statistics, stamp the end time, copy
the score into kpEarned, mark completed. -/
structure CompleteBody where
  score : Int
  correctAnswers : Int
  questionsAnswered : Int
  hintsUsed : Option Int
  badgeEarned : Option String
deriving DecidableEq, Repr

def completeFields (s : GameSession) (body : CompleteBody) (now : Nat) :
    GameSession :=
  { s with
    endTime := some now
    scoreRaw := body.score
    kpEarned := body.score
    correctAnswers := body.correctAnswers
    questionsAnswered := body.questionsAnswered
    hintsUsed := body.hintsUsed.getD 0
    badgeEarned := body.badgeEarned
    isCompleted := true }

/-- Numeric schema validators of gameSessionSchema that `save` enforces:
scoreRaw and kpEarned both carry a min-0 validator. -/
def sessionValid (s : GameSession) : Bool :=
  decide (0 ≤ s.scoreRaw) && decide (0 ≤ s.kpEarned)

/-- Numeric schema validators of childProfileSchema that `save` enforces:
knowledgePoints ≥ 0, 15 ≤ timeLimitMinutes ≤ 240, timeUsedToday ≥ 0. -/
def profileValid (p : ChildProfile) : Bool :=
  decide (0 ≤ p.knowledgePoints) && decide (15 ≤ p.timeLimitMinutes) &&
  decide (p.timeLimitMinutes ≤ 240) && decide (0 ≤ p.timeUsedToday)

/-- The persistent state touched by the completion pipeline. -/
structure Store where
  sessions : List (Nat × GameSession)
  profiles : List (Nat × ChildProfile)
  games : List (Nat × SeriousGame)
  txns : List KnowledgePointsTransaction
  timeLogs : List TimeUsageLog
deriving DecidableEq, Repr

/-- Which storage writes of the completion pipeline fail.  Each flag stands
for one await-ed save/create in source order; `noFail` is the normal run. -/
structure FailPlan where
  failSessionSave : Bool
  failPointsSave : Bool
  failTxnCreate : Bool
  failBadgeSave : Bool
  failCounterSave : Bool
  failGameSave : Bool
  failTimeSave : Bool
  failLogCreate : Bool
deriving DecidableEq, Repr

def noFail : FailPlan :=
  { failSessionSave := false, failPointsSave := false, failTxnCreate := false
    failBadgeSave := false, failCounterSave := false, failGameSave := false
    failTimeSave := false, failLogCreate := false }

/-- HTTP-level outcome of POST /games/session/:sessionId/complete.
errAlreadyCompleted is the 400 "Session already completed" response;
errInternal is the catch-all 500. -/
inductive CompleteOutcome
  | ok (durationMinutes : Nat)
  | errNotFound
  | errForbidden
  | errAlreadyCompleted
  | errInternal
deriving DecidableEq, Repr

/-- Reason string written by `childProfile.addPoints` from
`gameSessionSchema.methods.complete`. -/
def kpReason (gameId : Nat) : String := "SeriousGame: " ++ toString gameId

/-- Child-profile side of `gameSessionSchema.methods.complete`: addPoints
(save then ledger create), addAchievement when the badge is truthy and new,
then the totalGamesPlayed increment and save.  An error result carries the
partially updated store, as the JS route's catch leaves earlier awaited
writes persisted. -/
def profileUpdates (plan : FailPlan) (st : Store) (s : GameSession) :
    Except Store Store :=
  match alFind st.profiles s.childId with
  | none => .ok st
  | some p =>
    if plan.failPointsSave ||
        !profileValid { p with knowledgePoints := p.knowledgePoints + s.kpEarned } then
      .error st
    else
      let p1 := { p with knowledgePoints := p.knowledgePoints + s.kpEarned }
      let st1 := { st with profiles := alSet st.profiles s.childId p1 }
      if plan.failTxnCreate then .error st1
      else
        let st2 := { st1 with txns := st1.txns ++
          [{ childId := p.childId, points := s.kpEarned, reason := kpReason s.gameId }] }
        if truthyStr s.badgeEarned &&
            !(p1.achievements.contains (s.badgeEarned.getD "")) then
          if plan.failBadgeSave || !profileValid p1 then .error st2
          else
            let p2 := { p1 with achievements := p1.achievements ++ [s.badgeEarned.getD ""] }
            let st3 := { st2 with profiles := alSet st2.profiles s.childId p2 }
            if plan.failCounterSave || !profileValid p2 then .error st3
            else
              let p3 := { p2 with totalGamesPlayed := p2.totalGamesPlayed + 1 }
              .ok { st3 with profiles := alSet st3.profiles s.childId p3 }
        else
          if plan.failCounterSave || !profileValid p1 then .error st2
          else
            let p3 := { p1 with totalGamesPlayed := p1.totalGamesPlayed + 1 }
            .ok { st2 with profiles := alSet st2.profiles s.childId p3 }

/-- Game-statistics side of `gameSessionSchema.methods.complete`: look up
the game and apply `recordPlay`; a missing game is skipped. -/
def gameUpdate (plan : FailPlan) (st : Store) (s : GameSession) :
    Except Store Store :=
  match alFind st.games s.gameId with
  | none => .ok st
  | some g =>
    if plan.failGameSave then .error st
    else .ok { st with games := alSet st.games s.gameId (recordPlay g s.scoreRaw) }

/-- Duration computed by the route:
session.durationMinutes || Math.ceil((new Date() - session.startTime) / 60000),
i.e. the virtual's rounded value with a ceiling fallback when that value is
falsy (zero). -/
def routeDuration (s : GameSession) (now2 : Nat) : Nat :=
  if durationMinutes s ≠ 0 then durationMinutes s
  else jsCeil60000 (now2 - s.startTime)

/-- Tail of the completion route after `session.complete` returns: compute
the duration with the falsy-zero fallback, re-fetch the profile, call
`addTimeUsed`, and create the TimeUsageLog entry (whose min-0 duration
validator always passes since the duration is a natural number).  A null
profile here makes the JS route throw, surfacing the catch-all 500. -/
def routeTail (plan : FailPlan) (st : Store) (s : GameSession)
    (userId now2 : Nat) : CompleteOutcome × Store :=
  let dur := routeDuration s now2
  match alFind st.profiles userId with
  | none => (.errInternal, st)
  | some p =>
    if plan.failTimeSave || !profileValid (addTimeUsed p (dur : Int)).1 then
      (.errInternal, st)
    else
      let p' := (addTimeUsed p (dur : Int)).1
      let st1 := { st with profiles := alSet st.profiles userId p' }
      if plan.failLogCreate then (.errInternal, st1)
      else
        (.ok dur, { st1 with timeLogs := st1.timeLogs ++
          [{ childId := userId, durationMinutes := (dur : Int), gameId := s.gameId }] })

/-- Embedding of POST /api/child/games/session/:sessionId/complete
(child.js), parameterised by a failure plan for its storage writes.
`now` is the completion timestamp, `now2` the (later) clock read used by
the duration fallback. -/
def completeRoute (plan : FailPlan) (st : Store) (sessionId userId : Nat)
    (body : CompleteBody) (now now2 : Nat) : CompleteOutcome × Store :=
  match alFind st.sessions sessionId with
  | none => (.errNotFound, st)
  | some s =>
    if s.childId ≠ userId then (.errForbidden, st)
    else if s.isCompleted then (.errAlreadyCompleted, st)
    else if plan.failSessionSave || !sessionValid (completeFields s body now) then
      (.errInternal, st)
    else
      let s' := completeFields s body now
      let st1 := { st with sessions := alSet st.sessions sessionId s' }
      match profileUpdates plan st1 s' with
      | .error stE => (.errInternal, stE)
      | .ok st2 =>
        match gameUpdate plan st2 s' with
        | .error stE => (.errInternal, stE)
        | .ok st3 => routeTail plan st3 s' userId now2

/-! ## Safety alerts, resolution and notification fan-out -/

/-- A SafetyAlert document (SafetyAlert model). -/
structure SafetyAlert where
  childId : Nat
  severity : Severity
  alertType : AlertType
  message : String
  triggerKeyword : Option (List Char)
  resolved : Bool
  resolvedAt : Option Nat
  resolvedBy : Option Nat
  createdAt : Nat
  expiresAt : Nat
deriving DecidableEq, Repr

/-- Embedding of `safetyAlertSchema.methods.resolve`: unconditionally sets
the resolved fields to the current call's values and saves; the source has
no already-resolved guard. -/
def resolveAlert (a : SafetyAlert) (resolvedByUserId now : Nat) : SafetyAlert :=
  { a with resolved := true, resolvedAt := some now, resolvedBy := some resolvedByUserId }

/-- A GuardianProfile document, restricted to the fields the core reads. -/
structure GuardianProfile where
  guardianId : Nat
  linkedChildren : List Nat
deriving DecidableEq, Repr

/-- HTTP-level outcome of PUT /api/guardian/alerts/:alertId/resolve.
errInternal covers the catch-all 500 (e.g. a null profile dereference). -/
inductive ResolveOutcome
  | ok
  | errNotFound
  | errForbidden
  | errInternal
deriving DecidableEq, Repr

/-- State read by the resolve route: alerts keyed by alert id, child
profiles keyed by the child's user id (findOne by childId), guardian
profiles keyed by guardian user id. -/
structure AlertStore where
  alerts : List (Nat × SafetyAlert)
  profiles : List (Nat × ChildProfile)
  guardians : List (Nat × GuardianProfile)
deriving DecidableEq, Repr

/-- Embedding of PUT /api/guardian/alerts/:alertId/resolve (guardian.js):
404 when the alert is missing, 403 when the alert's child is not linked to
the calling guardian, otherwise `alert.resolve(req.user._id)`. -/
def resolveRoute (st : AlertStore) (alertId guardianUserId now : Nat) :
    ResolveOutcome × AlertStore :=
  match alFind st.alerts alertId with
  | none => (.errNotFound, st)
  | some a =>
    match alFind st.guardians guardianUserId with
    | none => (.errInternal, st)
    | some gp =>
      match alFind st.profiles a.childId with
      | none => (.errInternal, st)
      | some cp =>
        if gp.linkedChildren.contains cp.id then
          (.ok, { st with alerts := alSet st.alerts alertId (resolveAlert a guardianUserId now) })
        else (.errForbidden, st)

/-- A ChatMessage document.  The flagReason string "cat1, cat2, ..." is
modelled as the list of matched categories it is joined from. -/
structure ChatMessage where
  senderId : Nat
  content : List Char
  isFlagged : Bool
  flagReason : Option (List Category)
deriving DecidableEq, Repr

/-- A GuardianNotification document (Notification model). -/
structure Notification where
  guardianId : Nat
  alertId : Nat
  isRead : Bool
deriving DecidableEq, Repr

/-- State touched by the chat-message save pipeline.  Alerts here are a
plain list because the scan path only appends. -/
structure ChatStore where
  dict : List ThreatEntry
  profiles : List (Nat × ChildProfile)
  guardians : List (Nat × GuardianProfile)
  alerts : List SafetyAlert
  notifications : List Notification
  messages : List ChatMessage
deriving DecidableEq, Repr

/-- Alert-type derivation of the chat pre-save hook: Cyberbullying and
ExplicitContent map to themselves, every other category to Other. -/
def alertTypeOfCategory (c : Category) : AlertType :=
  if c = Category.Cyberbullying then .Cyberbullying
  else if c = Category.ExplicitContent then .ExplicitContent
  else .Other

/-- Embedding of the chatMessageSchema pre-save middleware together with
the save of the message itself (Notification.js, ChatMessage model): scan
the content, and when at least one threat matches, flag the message and
create one SafetyAlert whose severity is the highest among the matches and
whose trigger keyword and alert type come from the first match.  Note the
hook never creates a GuardianNotification. -/
def saveChatMessage (st : ChatStore) (senderId : Nat) (content : List Char)
    (now : Nat) : ChatStore :=
  match checkContent st.dict content with
  | [] =>
    { st with messages := st.messages ++
        [{ senderId := senderId, content := content
           isFlagged := false, flagReason := none }] }
  | t0 :: rest =>
    let threats := t0 :: rest
    let alert : SafetyAlert :=
      { childId := senderId
        severity := highestSevCore t0 rest
        alertType := alertTypeOfCategory t0.category
        message := "Flagged message detected with " ++ toString threats.length ++
          " safety concern(s)"
        triggerKeyword := some t0.keyword
        resolved := false, resolvedAt := none, resolvedBy := none
        createdAt := now, expiresAt := now + 90 * 24 * 60 * 60 * 1000 }
    { st with
        alerts := st.alerts ++ [alert]
        messages := st.messages ++
          [{ senderId := senderId, content := content
             isFlagged := true, flagReason := some (threats.map (·.category)) }] }

/-- Embedding of `notificationSchema.statics.createFromAlert`: look up the
child profile by child user id; when it has a guardianId, find the first
guardian profile whose linkedChildren contains the child profile's own id
and create one notification for that guardian; otherwise create nothing. -/
def createFromAlert (profiles : List (Nat × ChildProfile))
    (guardians : List (Nat × GuardianProfile))
    (notifications : List Notification) (alertId childId : Nat) :
    Option Notification × List Notification :=
  match alFind profiles childId with
  | none => (none, notifications)
  | some cp =>
    if cp.guardianId.isSome then
      match guardians.find? (fun g => g.2.linkedChildren.contains cp.id) with
      | none => (none, notifications)
      | some g =>
        let n : Notification := { guardianId := g.2.guardianId, alertId := alertId, isRead := false }
        (some n, notifications ++ [n])
    else (none, notifications)

/-! ## Guardian add-time route (guardian.js) -/

/-- HTTP-level outcome of POST /children/:childProfileId/add-time. -/
inductive AddTimeOutcome
  | ok (newTimeLimit timeRemaining : Int)
  | errValidation
  | errInternal
deriving DecidableEq, Repr

/-- State touched by the add-time route: child profiles keyed here by the
profile document id (the route uses findById), alerts keyed by alert id. -/
structure GuardianStore where
  profiles : List (Nat × ChildProfile)
  alerts : List (Nat × SafetyAlert)
deriving DecidableEq, Repr

/-- Embedding of POST /api/guardian/children/:childProfileId/add-time:
reject additionalMinutes outside [5,60] with a 400; otherwise add the
minutes to timeLimitMinutes and save — a save rejected by the schema's
validators (in particular the 240-minute maximum) throws and surfaces as
the catch-all 500 with the stored record unchanged; on success optionally
resolve the referenced alert. -/
def addTimeRoute (st : GuardianStore) (childProfileId : Nat)
    (additionalMinutes : Int) (alertId : Option Nat) (resolverId now : Nat) :
    AddTimeOutcome × GuardianStore :=
  if additionalMinutes < 5 ∨ 60 < additionalMinutes then (.errValidation, st)
  else
    match alFind st.profiles childProfileId with
    | none => (.errInternal, st)
    | some p =>
      let p' := { p with timeLimitMinutes := p.timeLimitMinutes + additionalMinutes }
      if !profileValid p' then (.errInternal, st)
      else
        let st1 := { st with profiles := alSet st.profiles childProfileId p' }
        let st2 :=
          match alertId with
          | none => st1
          | some aid =>
            match alFind st1.alerts aid with
            | none => st1
            | some a =>
              { st1 with alerts := alSet st1.alerts aid (resolveAlert a resolverId now) }
        (.ok p'.timeLimitMinutes (p'.timeLimitMinutes - p'.timeUsedToday), st2)

/-! ## Core operations on a single child's state (for the ledger invariant) -/

/-- The state the points invariant speaks about: one child's profile
together with that child's points-transaction ledger. -/
structure ChildState where
  profile : ChildProfile
  txns : List KnowledgePointsTransaction
deriving DecidableEq, Repr

/-- Embedding of `childProfileSchema.methods.addPoints` as its two
independently failing storage writes: first the balance increment is
saved, then one ledger entry with the same amount is created.
`txnCreateFails` models the KnowledgePointsTransaction.create rejecting
after the balance save has already persisted — the balance then moves
without a matching ledger entry.  A failing balance save leaves the state
entirely unchanged and is therefore represented by omitting the call. -/
def addPoints (cs : ChildState) (points : Int) (reason : String)
    (txnCreateFails : Bool) : ChildState :=
  let cs1 : ChildState :=
    { cs with profile :=
        { cs.profile with knowledgePoints := cs.profile.knowledgePoints + points } }
  if txnCreateFails then cs1
  else { cs1 with txns := cs1.txns ++
    [{ childId := cs.profile.childId, points := points, reason := reason }] }

/-- Embedding of `childProfileSchema.methods.addAchievement`: push the
badge only when it is not already present. -/
def addAchievement (p : ChildProfile) (a : String) : ChildProfile :=
  if p.achievements.contains a then p
  else { p with achievements := p.achievements ++ [a] }

/-- The operations of the core that touch a child's profile or ledger, as
found in the models and routes: these are the only writers of
knowledgePoints and of the transaction log in the backend (the seeder is
excluded scaffolding). -/
inductive CoreOp
  | opAddPoints (points : Int) (reason : String) (txnCreateFails : Bool)
  | opAddAchievement (badge : String)
  | opResetDailyTime (today : Nat)
  | opAddTimeUsed (minutes : Int)
  | opIncGamesPlayed
  | opSetTimeLimit (minutes : Int)
  | opAddTimeLimit (minutes : Int)
deriving DecidableEq, Repr

/-- One core operation applied to a child's state. -/
def applyOp (cs : ChildState) : CoreOp → ChildState
  | .opAddPoints pts r txnFails => addPoints cs pts r txnFails
  | .opAddAchievement b => { cs with profile := addAchievement cs.profile b }
  | .opResetDailyTime d => { cs with profile := resetDailyTime cs.profile d }
  | .opAddTimeUsed m => { cs with profile := (addTimeUsed cs.profile m).1 }
  | .opIncGamesPlayed =>
      { cs with profile :=
        { cs.profile with totalGamesPlayed := cs.profile.totalGamesPlayed + 1 } }
  | .opSetTimeLimit m => { cs with profile := { cs.profile with timeLimitMinutes := m } }
  | .opAddTimeLimit m =>
      { cs with profile :=
        { cs.profile with timeLimitMinutes := cs.profile.timeLimitMinutes + m } }

/-- A sequence of core operations applied in order. -/
def applyOps (cs : ChildState) (ops : List CoreOp) : ChildState :=
  ops.foldl applyOp cs

/-- Sum of the amounts in a transaction ledger. -/
def txnSum (txns : List KnowledgePointsTransaction) : Int :=
  (txns.map (·.points)).sum

/-- Points awarded by an operation whose ledger create failed after the
balance save persisted (zero for every other operation). -/
def droppedOf : CoreOp → Int
  | .opAddPoints pts _ txnCreateFails => if txnCreateFails then pts else 0
  | _ => 0

/-- Total points whose ledger entry was lost to a failed create across a
sequence of core operations. -/
def droppedPoints (ops : List CoreOp) : Int := (ops.map droppedOf).sum

/-- A child's initial state: zero balance, empty ledger. -/
def initialChildState (profileId childId : Nat) : ChildState :=
  { profile :=
      { id := profileId, childId := childId, knowledgePoints := 0
        achievements := [], timeLimitMinutes := 60, timeUsedToday := 0
        lastTimeReset := 0, guardianId := none, totalGamesPlayed := 0
        totalTimeSpent := 0 }
    txns := [] }

/-! ## Spec-side predicates and concrete fixtures -/

/-- Spec-side reading of a scan hit: the keyword occurs as a
case-insensitive substring of the text. -/
def occursCaseInsensitive (kw text : List Char) : Prop :=
  lowerChars kw <:+: lowerChars text

/-- Dictionary of the spec's scan example: one active entry
stupid/Low/Cyberbullying. -/
def c9Dict : List ThreatEntry :=
  [{ keyword := "stupid".toList, severity := .Low
     category := .Cyberbullying, isActive := true }]

/-- Unresolved alert used by the resolve-twice scenario. -/
def c3Alert : SafetyAlert :=
  { childId := 2, severity := .Medium, alertType := .Other, message := "flagged"
    triggerKeyword := none, resolved := false, resolvedAt := none
    resolvedBy := none, createdAt := 0, expiresAt := 7776000000 }

/-- Store for the resolve-twice scenario: alert 1 belongs to child 2 whose
profile (document id 10) is linked to guardian 9. -/
def c3Store : AlertStore :=
  { alerts := [(1, c3Alert)]
    profiles := [(2,
      { id := 10, childId := 2, knowledgePoints := 0, achievements := []
        timeLimitMinutes := 60, timeUsedToday := 0, lastTimeReset := 0
        guardianId := some 9, totalGamesPlayed := 0, totalTimeSpent := 0 })]
    guardians := [(9, { guardianId := 9, linkedChildren := [10] })] }

/-- Store for the scan fan-out scenario: child 2 has a linked guardian 9,
the dictionary holds the active entry stupid/Low/Cyberbullying, and no
alert, notification or message exists yet. -/
def c2Store : ChatStore :=
  { dict := c9Dict
    profiles := [(2,
      { id := 10, childId := 2, knowledgePoints := 0, achievements := []
        timeLimitMinutes := 60, timeUsedToday := 0, lastTimeReset := 0
        guardianId := some 9, totalGamesPlayed := 0, totalTimeSpent := 0 })]
    guardians := [(9, { guardianId := 9, linkedChildren := [10] })]
    alerts := [], notifications := [], messages := [] }

/-- Open session for the duration-rounding scenario: started at t = 0 ms. -/
def c8Session : GameSession :=
  { childId := 1, gameId := 5, scoreRaw := 0, kpEarned := 0, startTime := 0
    endTime := none, questionsAnswered := 0, correctAnswers := 0
    hintsUsed := 0, badgeEarned := none, isCompleted := false }

/-- Store for the duration-rounding scenario. -/
def c8Store : Store :=
  { sessions := [(1, c8Session)]
    profiles := [(1,
      { id := 10, childId := 1, knowledgePoints := 0, achievements := []
        timeLimitMinutes := 60, timeUsedToday := 0, lastTimeReset := 0
        guardianId := none, totalGamesPlayed := 0, totalTimeSpent := 0 })]
    games := [], txns := [], timeLogs := [] }

/-- Completion payload for the duration-rounding scenario. -/
def c8Body : CompleteBody :=
  { score := 10, correctAnswers := 3, questionsAnswered := 4
    hintsUsed := none, badgeEarned := none }

/-- Open session for the partial-failure scenario. -/
def c6Session : GameSession :=
  { childId := 1, gameId := 5, scoreRaw := 0, kpEarned := 0, startTime := 0
    endTime := none, questionsAnswered := 0, correctAnswers := 0
    hintsUsed := 0, badgeEarned := none, isCompleted := false }

/-- Store for the partial-failure scenario. -/
def c6Store : Store :=
  { sessions := [(1, c6Session)]
    profiles := [(1,
      { id := 10, childId := 1, knowledgePoints := 0, achievements := []
        timeLimitMinutes := 60, timeUsedToday := 0, lastTimeReset := 0
        guardianId := none, totalGamesPlayed := 0, totalTimeSpent := 0 })]
    games := [], txns := [], timeLogs := [] }

/-- Completion payload for the partial-failure scenario. -/
def c6Body : CompleteBody :=
  { score := 10, correctAnswers := 3, questionsAnswered := 4
    hintsUsed := none, badgeEarned := none }

/-- Failure plan for the partial-failure scenario: only the addTimeUsed
save (the time debit) fails. -/
def c6Plan : FailPlan := { noFail with failTimeSave := true }

/-- Open session for the exactly-once completion scenario. -/
def c1Session : GameSession :=
  { childId := 1, gameId := 5, scoreRaw := 0, kpEarned := 0, startTime := 0
    endTime := none, questionsAnswered := 0, correctAnswers := 0
    hintsUsed := 0, badgeEarned := none, isCompleted := false }

/-- Child profile for the exactly-once completion scenario. -/
def c1Profile : ChildProfile :=
  { id := 10, childId := 1, knowledgePoints := 0, achievements := []
    timeLimitMinutes := 60, timeUsedToday := 0, lastTimeReset := 0
    guardianId := none, totalGamesPlayed := 0, totalTimeSpent := 0 }

/-- Store for the exactly-once completion scenario. -/
def c1Store : Store :=
  { sessions := [(1, c1Session)], profiles := [(1, c1Profile)]
    games := [], txns := [], timeLogs := [] }

/-- Completion payload for the exactly-once completion scenario. -/
def c1Body : CompleteBody :=
  { score := 10, correctAnswers := 3, questionsAnswered := 4
    hintsUsed := none, badgeEarned := none }

/-- Child profile of the c8 store, named for the witness. -/
def c8Profile : ChildProfile :=
  { id := 10, childId := 1, knowledgePoints := 0, achievements := []
    timeLimitMinutes := 60, timeUsedToday := 0, lastTimeReset := 0
    guardianId := none, totalGamesPlayed := 0, totalTimeSpent := 0 }

/-- Child profile of the c6 store, named for the witness. -/
def c6Profile : ChildProfile :=
  { id := 10, childId := 1, knowledgePoints := 0, achievements := []
    timeLimitMinutes := 60, timeUsedToday := 0, lastTimeReset := 0
    guardianId := none, totalGamesPlayed := 0, totalTimeSpent := 0 }

/-- Open session for the lost-ledger-entry scenario. -/
def c4Session : GameSession :=
  { childId := 1, gameId := 5, scoreRaw := 0, kpEarned := 0, startTime := 0
    endTime := none, questionsAnswered := 0, correctAnswers := 0
    hintsUsed := 0, badgeEarned := none, isCompleted := false }

/-- Store for the lost-ledger-entry scenario: balance 0, empty ledger. -/
def c4Store : Store :=
  { sessions := [(1, c4Session)]
    profiles := [(1,
      { id := 10, childId := 1, knowledgePoints := 0, achievements := []
        timeLimitMinutes := 60, timeUsedToday := 0, lastTimeReset := 0
        guardianId := none, totalGamesPlayed := 0, totalTimeSpent := 0 })]
    games := [], txns := [], timeLogs := [] }

/-- Completion payload for the lost-ledger-entry scenario. -/
def c4Body : CompleteBody :=
  { score := 10, correctAnswers := 3, questionsAnswered := 4
    hintsUsed := none, badgeEarned := none }

/-- Failure plan for the lost-ledger-entry scenario: only the
KnowledgePointsTransaction.create after the balance save fails. -/
def c4Plan : FailPlan := { noFail with failTxnCreate := true }

/-! ## Bridge lemmas: the JS substring scan equals substring occurrence -/

theorem startsWithChars_iff (pat : List Char) :
    ∀ hay, startsWithChars hay pat = true ↔ pat <+: hay := by
  induction pat with
  | nil => intro hay; simp [startsWithChars]
  | cons b bs ih =>
    intro hay
    cases hay with
    | nil => simp [startsWithChars]
    | cons a t =>
      show (decide (a = b) && startsWithChars t bs) = true ↔ _
      simp only [Bool.and_eq_true, decide_eq_true_eq, ih, List.cons_prefix_cons]
      constructor
      · rintro ⟨h1, h2⟩; exact ⟨h1.symm, h2⟩
      · rintro ⟨h1, h2⟩; exact ⟨h1.symm, h2⟩

theorem containsSub_iff (pat : List Char) :
    ∀ hay, containsSub hay pat = true ↔ pat <:+: hay := by
  intro hay
  induction hay with
  | nil =>
    rw [containsSub]
    cases pat with
    | nil => simp [startsWithChars]
    | cons b bs => simp [startsWithChars]
  | cons a t ih =>
    rw [containsSub]
    by_cases hs : startsWithChars (a :: t) pat = true
    · simp only [hs, if_true, true_iff]
      exact ((startsWithChars_iff pat (a :: t)).mp hs).isInfix
    · rw [if_neg hs, ih, List.infix_cons_iff]
      constructor
      · exact Or.inr
      · intro h
        rcases h with hpre | hin
        · exact absurd ((startsWithChars_iff pat (a :: t)).mpr hpre) hs
        · exact hin

/-! ## Claim theorems -/

/-- C9: for every input text and dictionary state, `scan` (checkContent)
returns exactly those dictionary entries that are active and whose keyword
occurs as a case-insensitive substring of the text, each reported with its
severity and category; and scanning "you are so stupid" against a
dictionary with only the active entry stupid/Low/Cyberbullying returns
exactly one match, with severity Low and category Cyberbullying (the
highest severity of that result being Low).  The lowercase hypothesis on
the stored keywords is enforced by the schema's lowercase normalizer. -/
theorem C9_scan_matches (dict : List ThreatEntry) (content : List Char)
    (hlow : ∀ t ∈ dict, lowerChars t.keyword = t.keyword) :
    (∀ m : ThreatMatch, m ∈ checkContent dict content ↔
      ∃ t ∈ dict, t.isActive = true ∧ occursCaseInsensitive t.keyword content ∧
        m = { keyword := t.keyword, severity := t.severity, category := t.category }) ∧
    checkContent c9Dict "you are so stupid".toList =
      [{ keyword := "stupid".toList, severity := .Low, category := .Cyberbullying }] ∧
    getHighestSeverity (checkContent c9Dict "you are so stupid".toList) =
      some .Low := by
  refine ⟨?_, by decide, by decide⟩
  intro m
  simp only [checkContent, List.mem_filterMap, List.mem_filter]
  constructor
  · rintro ⟨t, ⟨ht, hact⟩, hf⟩
    by_cases hc : containsSub (lowerChars content) t.keyword = true
    · rw [if_pos hc] at hf
      refine ⟨t, ht, hact, ?_, (Option.some_inj.mp hf).symm⟩
      have := (containsSub_iff t.keyword (lowerChars content)).mp hc
      rw [occursCaseInsensitive, hlow t ht]
      exact this
    · rw [if_neg hc] at hf
      exact absurd hf (by simp)
  · rintro ⟨t, ht, hact, hocc, hm⟩
    refine ⟨t, ⟨ht, hact⟩, ?_⟩
    have hc : containsSub (lowerChars content) t.keyword = true := by
      apply (containsSub_iff t.keyword (lowerChars content)).mpr
      rw [occursCaseInsensitive, hlow t ht] at hocc
      exact hocc
    rw [if_pos hc, hm]

/-- Witness for C9 at the spec's concrete example. -/
theorem C9_scan_matches_witness :
    checkContent c9Dict "you are so stupid".toList =
      [{ keyword := "stupid".toList, severity := .Low, category := .Cyberbullying }] :=
  (C9_scan_matches c9Dict "you are so stupid".toList (by decide)).2.1

/-- C5: a time-status read through checkTimeLimit first runs the daily
reset: when the stored lastTimeReset is on an earlier calendar day than
today, it zeroes timeUsedToday and stamps lastTimeReset with today before
reporting, so the reported usedMinutesToday is 0 regardless of the prior
value; on a same-day access the record is left unchanged, so the reset
happens at most once per calendar day. -/
theorem C5_daily_reset (p : ChildProfile) (today : Nat) :
    (p.lastTimeReset < today →
      (checkTimeLimitFound p today).1.timeUsedToday = 0 ∧
      (checkTimeLimitFound p today).2.timeUsedToday = 0 ∧
      (checkTimeLimitFound p today).2.lastTimeReset = today) ∧
    (p.lastTimeReset = today →
      (checkTimeLimitFound p today).1.timeUsedToday = p.timeUsedToday ∧
      (checkTimeLimitFound p today).2 = p) := by
  constructor
  · intro h
    have hne : today ≠ p.lastTimeReset := fun he => absurd (he ▸ h) (lt_irrefl today)
    simp [checkTimeLimitFound, resetDailyTime, hne]
  · intro h
    simp [checkTimeLimitFound, resetDailyTime, h]

/-- Witness for C5: a stale record (day 3, 120 minutes used) read on day 7
reports zero use; the same record read again on day 7 is unchanged. -/
theorem C5_daily_reset_witness :
    (checkTimeLimitFound
      { id := 1, childId := 1, knowledgePoints := 0, achievements := []
        timeLimitMinutes := 60, timeUsedToday := 120, lastTimeReset := 3
        guardianId := none, totalGamesPlayed := 0, totalTimeSpent := 0 } 7).1.timeUsedToday = 0 ∧
    (checkTimeLimitFound
      { id := 1, childId := 1, knowledgePoints := 0, achievements := []
        timeLimitMinutes := 60, timeUsedToday := 30, lastTimeReset := 7
        guardianId := none, totalGamesPlayed := 0, totalTimeSpent := 0 } 7).1.timeUsedToday = 30 :=
  ⟨((C5_daily_reset
      { id := 1, childId := 1, knowledgePoints := 0, achievements := []
        timeLimitMinutes := 60, timeUsedToday := 120, lastTimeReset := 3
        guardianId := none, totalGamesPlayed := 0, totalTimeSpent := 0 } 7).1 (by decide)).1,
   ((C5_daily_reset
      { id := 1, childId := 1, knowledgePoints := 0, achievements := []
        timeLimitMinutes := 60, timeUsedToday := 30, lastTimeReset := 7
        guardianId := none, totalGamesPlayed := 0, totalTimeSpent := 0 } 7).2 rfl).1⟩

/-- C7: usage recording never clamps to the limit, and enforcement happens
only at the next session-start check.  With dailyLimitMinutes = 60 and
usedMinutesToday = 55 (already reset today) the screen-time gate admits the
request with 5 minutes remaining; recording 12 minutes yields
usedMinutesToday = 67 and 12 more lifetime minutes; the next gate check
blocks because remaining minutes is not positive. -/
theorem C7_no_clamp (p : ChildProfile) (today : Nat)
    (hl : p.timeLimitMinutes = 60) (hu : p.timeUsedToday = 55)
    (hd : p.lastTimeReset = today) :
    (checkScreenTime p today).1 =
      .allowed { allowed := true, timeRemaining := 5
                 timeLimitMinutes := 60, timeUsedToday := 55 } ∧
    (addTimeUsed (checkScreenTime p today).2 12).1.timeUsedToday = 67 ∧
    (addTimeUsed (checkScreenTime p today).2 12).1.totalTimeSpent =
      p.totalTimeSpent + 12 ∧
    (checkScreenTime (addTimeUsed (checkScreenTime p today).2 12).1 today).1 =
      .blocked := by
  have hreset : resetDailyTime p today = p := by
    simp [resetDailyTime, hd]
  have hst : checkTimeLimitFound p today =
      ({ allowed := true, timeRemaining := 5
         timeLimitMinutes := 60, timeUsedToday := 55 }, p) := by
    simp [checkTimeLimitFound, hreset, hl, hu]
  have hgate : checkScreenTime p today =
      (.allowed { allowed := true, timeRemaining := 5
                  timeLimitMinutes := 60, timeUsedToday := 55 }, p) := by
    simp [checkScreenTime, hst]
  refine ⟨by rw [hgate], ?_, ?_, ?_⟩
  · rw [hgate]; simp [addTimeUsed, hu]
  · rw [hgate]; simp [addTimeUsed]
  · rw [hgate]
    simp only [addTimeUsed]
    simp [checkScreenTime, checkTimeLimitFound, resetDailyTime, hd, hl, hu]

/-- Witness for C7 at a concrete profile. -/
theorem C7_no_clamp_witness :
    (checkScreenTime
      { id := 1, childId := 1, knowledgePoints := 0, achievements := []
        timeLimitMinutes := 60, timeUsedToday := 55, lastTimeReset := 7
        guardianId := none, totalGamesPlayed := 0, totalTimeSpent := 100 } 7).1 =
      .allowed { allowed := true, timeRemaining := 5
                 timeLimitMinutes := 60, timeUsedToday := 55 } :=
  (C7_no_clamp
    { id := 1, childId := 1, knowledgePoints := 0, achievements := []
      timeLimitMinutes := 60, timeUsedToday := 55, lastTimeReset := 7
      guardianId := none, totalGamesPlayed := 0, totalTimeSpent := 100 } 7
    rfl rfl rfl).1

/-- C10: the persisted daily limit never exceeds 240 — an add-time request
whose in-range extension (5–60 minutes) would push dailyLimitMinutes past
the schema's 240-minute maximum fails at save-time validation, surfaced as
the catch-all internal error rather than a validation rejection, and the
stored record is unchanged. -/
theorem C10_limit_cap (st : GuardianStore) (pid : Nat) (m : Int)
    (alertId : Option Nat) (rid now : Nat) (p : ChildProfile)
    (hp : alFind st.profiles pid = some p)
    (hm5 : 5 ≤ m) (hm60 : m ≤ 60)
    (hover : 240 < p.timeLimitMinutes + m) :
    addTimeRoute st pid m alertId rid now = (.errInternal, st) := by
  have hv : ¬(m < 5 ∨ 60 < m) := by omega
  have hval : profileValid { p with timeLimitMinutes := p.timeLimitMinutes + m } = false := by
    have : ¬(profileValid { p with timeLimitMinutes := p.timeLimitMinutes + m } = true) := by
      simp only [profileValid, Bool.and_eq_true, decide_eq_true_eq]
      intro hcon
      omega
    exact Bool.eq_false_iff.mpr (fun he => this he)
  simp only [addTimeRoute, hp]
  rw [if_neg hv]
  simp [hval]

/-- Witness for C10: a 230-minute limit plus a 20-minute extension is
refused with an internal error and the store is unchanged. -/
theorem C10_limit_cap_witness :
    addTimeRoute
      { profiles := [(10,
          { id := 10, childId := 2, knowledgePoints := 0, achievements := []
            timeLimitMinutes := 230, timeUsedToday := 0, lastTimeReset := 0
            guardianId := some 9, totalGamesPlayed := 0, totalTimeSpent := 0 })]
        alerts := [] } 10 20 none 9 0 =
      (.errInternal,
        { profiles := [(10,
            { id := 10, childId := 2, knowledgePoints := 0, achievements := []
              timeLimitMinutes := 230, timeUsedToday := 0, lastTimeReset := 0
              guardianId := some 9, totalGamesPlayed := 0, totalTimeSpent := 0 })]
          alerts := [] }) :=
  C10_limit_cap _ 10 20 none 9 0
    { id := 10, childId := 2, knowledgePoints := 0, achievements := []
      timeLimitMinutes := 230, timeUsedToday := 0, lastTimeReset := 0
      guardianId := some 9, totalGamesPlayed := 0, totalTimeSpent := 0 }
    (by decide) (by decide) (by decide) (by decide)

/-- Helper: one core operation moves the balance ahead of the ledger sum
by exactly the points of an award whose ledger create failed. -/
theorem applyOp_dropped (cs : ChildState) (op : CoreOp) :
    (applyOp cs op).profile.knowledgePoints - txnSum (applyOp cs op).txns =
      cs.profile.knowledgePoints - txnSum cs.txns + droppedOf op := by
  cases op with
  | opAddPoints pts r txnFails =>
    cases txnFails with
    | false => simp [applyOp, addPoints, droppedOf, txnSum]
    | true =>
      simp [applyOp, addPoints, droppedOf, txnSum]
      omega
  | opAddAchievement b =>
    simp only [applyOp, droppedOf]
    rw [show (addAchievement cs.profile b).knowledgePoints =
          cs.profile.knowledgePoints by unfold addAchievement; split <;> rfl]
    omega
  | opResetDailyTime d =>
    simp only [applyOp, droppedOf]
    rw [show (resetDailyTime cs.profile d).knowledgePoints =
          cs.profile.knowledgePoints by unfold resetDailyTime; split <;> rfl]
    omega
  | opAddTimeUsed m => simp [applyOp, addTimeUsed, droppedOf]
  | opIncGamesPlayed => simp [applyOp, droppedOf]
  | opSetTimeLimit m => simp [applyOp, droppedOf]
  | opAddTimeLimit m => simp [applyOp, droppedOf]

/-- Helper: over a sequence of core operations the balance runs ahead of
the ledger sum by exactly the total of the lost ledger entries. -/
theorem childState_dropped (ops : List CoreOp) :
    ∀ cs : ChildState,
      (applyOps cs ops).profile.knowledgePoints - txnSum (applyOps cs ops).txns =
        cs.profile.knowledgePoints - txnSum cs.txns + droppedPoints ops := by
  induction ops with
  | nil => intro cs; simp [applyOps, droppedPoints]
  | cons op rest ih =>
    intro cs
    have hrw : applyOps cs (op :: rest) = applyOps (applyOp cs op) rest := rfl
    have hdp : droppedPoints (op :: rest) = droppedOf op + droppedPoints rest := by
      simp [droppedPoints]
    rw [hrw, ih (applyOp cs op), applyOp_dropped, hdp]
    omega

/-- C4 counterexample: in the completion-route model with only the
KnowledgePointsTransaction.create failing (after the balance save
persisted), the final state has knowledgePoints 10 and an empty ledger —
the balance does not equal the ledger sum, refuting the claimed invariant
in a reachable program state. -/
theorem C4_counterexample :
    (completeRoute c4Plan c4Store 1 1 c4Body 60000 60000).1 = .errInternal ∧
    (alFind (completeRoute c4Plan c4Store 1 1 c4Body 60000 60000).2.profiles 1).map
      (fun q => q.knowledgePoints) = some 10 ∧
    (completeRoute c4Plan c4Store 1 1 c4Body 60000 60000).2.txns = [] ∧
    (alFind (completeRoute c4Plan c4Store 1 1 c4Body 60000 60000).2.profiles 1).map
      (fun q => q.knowledgePoints) ≠
      some (txnSum (completeRoute c4Plan c4Store 1 1 c4Body 60000 60000).2.txns) := by
  decide

/-- C4 (amended): starting from a zero balance and an empty ledger, after
every sequence of core operations the child's knowledgePoints equals the
sum of the ledger amounts plus the total of the awards whose ledger create
failed after the balance save persisted; in particular, whenever no ledger
create fails, the balance equals the ledger sum exactly. -/
theorem C4_ledger_dropped (profileId childId : Nat) (ops : List CoreOp) :
    ((applyOps (initialChildState profileId childId) ops).profile.knowledgePoints =
      txnSum (applyOps (initialChildState profileId childId) ops).txns +
        droppedPoints ops) ∧
    (droppedPoints ops = 0 →
      (applyOps (initialChildState profileId childId) ops).profile.knowledgePoints =
        txnSum (applyOps (initialChildState profileId childId) ops).txns) := by
  have h := childState_dropped ops (initialChildState profileId childId)
  have h0 : (initialChildState profileId childId).profile.knowledgePoints = 0 := rfl
  have h1 : txnSum (initialChildState profileId childId).txns = 0 := rfl
  rw [h0, h1] at h
  exact ⟨by omega, fun hz => by omega⟩

/-- Witness for the amended C4: one successful award of 10 points leaves
the balance equal to the ledger sum. -/
theorem C4_ledger_dropped_witness :
    (applyOps (initialChildState 10 1)
      [CoreOp.opAddPoints 10 "SeriousGame: 5" false]).profile.knowledgePoints =
      txnSum (applyOps (initialChildState 10 1)
        [CoreOp.opAddPoints 10 "SeriousGame: 5" false]).txns :=
  (C4_ledger_dropped 10 1 [CoreOp.opAddPoints 10 "SeriousGame: 5" false]).2
    (by decide)

/-- C3 counterexample: resolving the same alert twice succeeds both times
and the second call overwrites resolvedAt, contradicting the claim that the
second call fails with AlreadyResolved and leaves resolvedAt unchanged. -/
theorem C3_counterexample :
    (resolveRoute c3Store 1 9 100).1 = .ok ∧
    (alFind (resolveRoute c3Store 1 9 100).2.alerts 1).map
      (fun a => a.resolvedAt) = some (some 100) ∧
    (resolveRoute (resolveRoute c3Store 1 9 100).2 1 9 200).1 = .ok ∧
    (alFind (resolveRoute (resolveRoute c3Store 1 9 100).2 1 9 200).2.alerts 1).map
      (fun a => a.resolvedAt) = some (some 200) := by
  decide

/-- C3 (amended): every resolve call on an existing alert whose child is
linked to the calling guardian succeeds — including calls on an
already-resolved alert — and overwrites resolved, resolvedAt and resolvedBy
with the current call's values; the source has no AlreadyResolved guard. -/
theorem C3_resolve_overwrites (st : AlertStore) (alertId uid now : Nat)
    (a : SafetyAlert) (gp : GuardianProfile) (cp : ChildProfile)
    (ha : alFind st.alerts alertId = some a)
    (hg : alFind st.guardians uid = some gp)
    (hc : alFind st.profiles a.childId = some cp)
    (hl : gp.linkedChildren.contains cp.id = true) :
    (resolveRoute st alertId uid now).1 = .ok ∧
    alFind (resolveRoute st alertId uid now).2.alerts alertId =
      some { a with resolved := true, resolvedAt := some now, resolvedBy := some uid } := by
  simp only [resolveRoute, ha, hg, hc, hl, if_true]
  exact ⟨trivial, alFind_alSet_self st.alerts alertId _ a ha⟩

/-- Witness for the amended C3 at the concrete resolve-twice store. -/
theorem C3_resolve_overwrites_witness :
    (resolveRoute c3Store 1 9 100).1 = ResolveOutcome.ok :=
  (C3_resolve_overwrites c3Store 1 9 100 c3Alert
    { guardianId := 9, linkedChildren := [10] }
    { id := 10, childId := 2, knowledgePoints := 0, achievements := []
      timeLimitMinutes := 60, timeUsedToday := 0, lastTimeReset := 0
      guardianId := some 9, totalGamesPlayed := 0, totalTimeSpent := 0 }
    (by decide) (by decide) (by decide) (by decide)).1

/-- C2 counterexample: a flagged chat message from a child with a linked
guardian creates exactly one SafetyAlert and zero GuardianNotifications,
contradicting the claim that exactly one notification is created. -/
theorem C2_counterexample :
    (saveChatMessage c2Store 2 "you are so stupid".toList 0).alerts.length = 1 ∧
    (saveChatMessage c2Store 2 "you are so stupid".toList 0).notifications = [] ∧
    ¬((saveChatMessage c2Store 2 "you are so stupid".toList 0).notifications.length = 1) := by
  decide

/-- C2 (amended): for every non-empty scan match list, the chat-save
pipeline creates exactly one SafetyAlert and zero GuardianNotifications,
whether or not the child has a linked guardian: the notification fan-out
(createFromAlert) is never invoked on the scan path. -/
theorem C2_scan_no_notification (st : ChatStore) (senderId : Nat)
    (content : List Char) (now : Nat)
    (h : checkContent st.dict content ≠ []) :
    (saveChatMessage st senderId content now).alerts.length =
      st.alerts.length + 1 ∧
    (saveChatMessage st senderId content now).notifications =
      st.notifications := by
  cases hc : checkContent st.dict content with
  | nil => exact absurd hc h
  | cons t0 rest => simp [saveChatMessage, hc]

/-- Witness for the amended C2 at the concrete linked-guardian store. -/
theorem C2_scan_no_notification_witness :
    (saveChatMessage c2Store 2 "you are so stupid".toList 0).alerts.length =
      c2Store.alerts.length + 1 :=
  (C2_scan_no_notification c2Store 2 "you are so stupid".toList 0 (by decide)).1

/-! ## Helper lemmas for the completion pipeline -/

theorem profileValid_iff (p : ChildProfile) :
    profileValid p = true ↔
      0 ≤ p.knowledgePoints ∧ 15 ≤ p.timeLimitMinutes ∧
      p.timeLimitMinutes ≤ 240 ∧ 0 ≤ p.timeUsedToday := by
  unfold profileValid
  simp [and_assoc]

theorem profileValid_set_achievements (p : ChildProfile) (l : List String) :
    profileValid { p with achievements := l } = profileValid p := rfl

theorem profileValid_set_totalGames (p : ChildProfile) (n : Nat) :
    profileValid { p with totalGamesPlayed := n } = profileValid p := rfl

theorem profileUpdates_ok (plan : FailPlan) (st : Store) (s : GameSession)
    (p : ChildProfile)
    (hf1 : plan.failPointsSave = false) (hf2 : plan.failTxnCreate = false)
    (hf3 : plan.failBadgeSave = false) (hf4 : plan.failCounterSave = false)
    (hp : alFind st.profiles s.childId = some p)
    (hv : profileValid { p with knowledgePoints := p.knowledgePoints + s.kpEarned } = true) :
    ∃ st' q,
      profileUpdates plan st s = .ok st' ∧
      st'.sessions = st.sessions ∧ st'.games = st.games ∧
      st'.timeLogs = st.timeLogs ∧
      st'.txns = st.txns ++
        [{ childId := p.childId, points := s.kpEarned, reason := kpReason s.gameId }] ∧
      alFind st'.profiles s.childId = some q ∧
      q.knowledgePoints = p.knowledgePoints + s.kpEarned ∧
      q.childId = p.childId ∧ q.timeLimitMinutes = p.timeLimitMinutes ∧
      q.timeUsedToday = p.timeUsedToday ∧ q.totalTimeSpent = p.totalTimeSpent ∧
      q.lastTimeReset = p.lastTimeReset := by
  have hv1 : profileValid { p with
      knowledgePoints := p.knowledgePoints + s.kpEarned,
      achievements := p.achievements ++ [s.badgeEarned.getD ""] } = true := hv
  unfold profileUpdates
  rw [hp]
  simp only [hf1, hf2, hf3, hf4, hv, hv1, Bool.not_true, Bool.or_false,
    Bool.false_or, if_false, Bool.or_self]
  by_cases hb : (truthyStr s.badgeEarned &&
      !(List.contains ({ p with knowledgePoints := p.knowledgePoints + s.kpEarned} : ChildProfile).achievements (s.badgeEarned.getD ""))) = true
  · rw [if_pos hb]
    refine ⟨_, { p with
        knowledgePoints := p.knowledgePoints + s.kpEarned,
        achievements := p.achievements ++ [s.badgeEarned.getD ""],
        totalGamesPlayed := p.totalGamesPlayed + 1 },
      rfl, rfl, rfl, rfl, rfl, ?_, rfl, rfl, rfl, rfl, rfl, rfl⟩
    apply alFind_alSet_self
    apply alFind_alSet_self
    exact alFind_alSet_self _ _ _ _ hp
  · rw [if_neg hb]
    refine ⟨_, { p with
        knowledgePoints := p.knowledgePoints + s.kpEarned,
        totalGamesPlayed := p.totalGamesPlayed + 1 },
      rfl, rfl, rfl, rfl, rfl, ?_, rfl, rfl, rfl, rfl, rfl, rfl⟩
    apply alFind_alSet_self
    exact alFind_alSet_self _ _ _ _ hp

theorem gameUpdate_ok (plan : FailPlan) (st : Store) (s : GameSession)
    (hf : plan.failGameSave = false) :
    ∃ st', gameUpdate plan st s = .ok st' ∧
      st'.sessions = st.sessions ∧ st'.profiles = st.profiles ∧
      st'.txns = st.txns ∧ st'.timeLogs = st.timeLogs := by
  unfold gameUpdate
  cases hg : alFind st.games s.gameId with
  | none => exact ⟨st, rfl, rfl, rfl, rfl, rfl⟩
  | some g =>
    simp only [hf]
    exact ⟨_, rfl, rfl, rfl, rfl, rfl⟩

theorem routeTail_ok (plan : FailPlan) (st : Store) (s : GameSession)
    (uid now2 : Nat) (q : ChildProfile)
    (hf1 : plan.failTimeSave = false) (hf2 : plan.failLogCreate = false)
    (hq : alFind st.profiles uid = some q)
    (hval : profileValid (addTimeUsed q ((routeDuration s now2 : Nat) : Int)).1 = true) :
    routeTail plan st s uid now2 =
      (.ok (routeDuration s now2),
       { st with
          profiles := alSet st.profiles uid
            (addTimeUsed q ((routeDuration s now2 : Nat) : Int)).1
          timeLogs := st.timeLogs ++
            [{ childId := uid
               durationMinutes := ((routeDuration s now2 : Nat) : Int)
               gameId := s.gameId }] }) := by
  unfold routeTail
  rw [hq]
  simp only [hf1, hf2, hval, Bool.not_true, Bool.or_false, Bool.false_or, if_false]
  rfl

theorem routeTail_failTime (plan : FailPlan) (st : Store) (s : GameSession)
    (uid now2 : Nat) (q : ChildProfile)
    (hf : plan.failTimeSave = true)
    (hq : alFind st.profiles uid = some q) :
    routeTail plan st s uid now2 = (.errInternal, st) := by
  unfold routeTail
  rw [hq]
  simp [hf]

theorem completeRoute_entry (plan : FailPlan) (st : Store)
    (sid uid : Nat) (body : CompleteBody) (now now2 : Nat) (s : GameSession)
    (hs : alFind st.sessions sid = some s) (howner : s.childId = uid)
    (hopen : s.isCompleted = false) (hplan : plan.failSessionSave = false)
    (hsv : sessionValid (completeFields s body now) = true) :
    completeRoute plan st sid uid body now now2 =
      (match profileUpdates plan
          { st with sessions := alSet st.sessions sid (completeFields s body now) }
          (completeFields s body now) with
       | .error stE => (.errInternal, stE)
       | .ok st2 =>
         match gameUpdate plan st2 (completeFields s body now) with
         | .error stE => (.errInternal, stE)
         | .ok st3 => routeTail plan st3 (completeFields s body now) uid now2) := by
  unfold completeRoute
  simp only [hs]
  rw [if_neg (show ¬s.childId ≠ uid from fun h => h howner)]
  rw [if_neg (show ¬s.isCompleted = true by rw [hopen]; exact Bool.false_ne_true)]
  rw [if_neg (show ¬(plan.failSessionSave ||
    !sessionValid (completeFields s body now)) = true by rw [hplan, hsv]; simp)]

theorem completeRoute_alreadyCompleted (plan : FailPlan) (st : Store)
    (sid uid : Nat) (body : CompleteBody) (now now2 : Nat) (s : GameSession)
    (hs : alFind st.sessions sid = some s) (howner : s.childId = uid)
    (hdone : s.isCompleted = true) :
    completeRoute plan st sid uid body now now2 = (.errAlreadyCompleted, st) := by
  unfold completeRoute
  simp only [hs]
  rw [if_neg (show ¬s.childId ≠ uid from fun h => h howner)]
  rw [if_pos hdone]

/-- Master lemma: a failure-free completion call on an open, owned session
with a schema-valid profile and a non-negative score succeeds, and the
final store carries exactly the effects of the six steps. -/
theorem completeRoute_noFail_spec (st : Store) (sid uid : Nat)
    (body : CompleteBody) (now now2 : Nat) (s : GameSession) (p : ChildProfile)
    (hs : alFind st.sessions sid = some s)
    (howner : s.childId = uid)
    (hopen : s.isCompleted = false)
    (hp : alFind st.profiles uid = some p)
    (hscore : 0 ≤ body.score)
    (hpv : profileValid p = true) :
    ∃ stF q,
      completeRoute noFail st sid uid body now now2 =
        (.ok (routeDuration (completeFields s body now) now2), stF) ∧
      alFind stF.sessions sid = some (completeFields s body now) ∧
      alFind stF.profiles uid = some q ∧
      q.knowledgePoints = p.knowledgePoints + body.score ∧
      q.timeUsedToday = p.timeUsedToday +
        ((routeDuration (completeFields s body now) now2 : Nat) : Int) ∧
      q.totalTimeSpent = p.totalTimeSpent +
        ((routeDuration (completeFields s body now) now2 : Nat) : Int) ∧
      stF.txns = st.txns ++
        [{ childId := p.childId, points := body.score, reason := kpReason s.gameId }] ∧
      stF.timeLogs = st.timeLogs ++
        [{ childId := uid
           durationMinutes := ((routeDuration (completeFields s body now) now2 : Nat) : Int)
           gameId := s.gameId }] := by
  obtain ⟨hpv1, hpv2, hpv3, hpv4⟩ := (profileValid_iff p).mp hpv
  have hsv : sessionValid (completeFields s body now) = true := by
    simp [sessionValid, completeFields, hscore]
  have hp1 : alFind
      ({ st with sessions := alSet st.sessions sid (completeFields s body now) } : Store).profiles
      (completeFields s body now).childId = some p := by
    show alFind st.profiles s.childId = some p
    rw [howner]; exact hp
  have hv1 : profileValid { p with
      knowledgePoints := p.knowledgePoints + (completeFields s body now).kpEarned } = true := by
    rw [profileValid_iff]
    refine ⟨?_, hpv2, hpv3, hpv4⟩
    show 0 ≤ p.knowledgePoints + body.score
    omega
  obtain ⟨stA, q0, hApu, hAsess, hAgames, hAlogs, hAtxns, hAfind,
    hqkp, hqcid, hqlim, hqused, hqtot, hqreset⟩ :=
    profileUpdates_ok noFail _ (completeFields s body now) p rfl rfl rfl rfl hp1 hv1
  obtain ⟨stB, hBgu, hBsess, hBprof, hBtxns, hBlogs⟩ :=
    gameUpdate_ok noFail stA (completeFields s body now) rfl
  have hBfind : alFind stB.profiles uid = some q0 := by
    rw [hBprof]
    have hcid : (completeFields s body now).childId = uid := howner
    rw [← hcid]; exact hAfind
  have hq0kp : q0.knowledgePoints = p.knowledgePoints + body.score := hqkp
  have hval : profileValid (addTimeUsed q0
      ((routeDuration (completeFields s body now) now2 : Nat) : Int)).1 = true := by
    rw [profileValid_iff]
    refine ⟨?_, ?_, ?_, ?_⟩
    · show 0 ≤ q0.knowledgePoints
      omega
    · show 15 ≤ q0.timeLimitMinutes
      omega
    · show q0.timeLimitMinutes ≤ 240
      omega
    · show 0 ≤ q0.timeUsedToday +
        ((routeDuration (completeFields s body now) now2 : Nat) : Int)
      have := Int.natCast_nonneg (routeDuration (completeFields s body now) now2)
      omega
  have hroute : completeRoute noFail st sid uid body now now2 =
      (.ok (routeDuration (completeFields s body now) now2),
       { stB with
          profiles := alSet stB.profiles uid
            (addTimeUsed q0 ((routeDuration (completeFields s body now) now2 : Nat) : Int)).1
          timeLogs := stB.timeLogs ++
            [{ childId := uid
               durationMinutes := ((routeDuration (completeFields s body now) now2 : Nat) : Int)
               gameId := (completeFields s body now).gameId }] }) := by
    rw [completeRoute_entry noFail st sid uid body now now2 s hs howner hopen rfl hsv]
    simp only [hApu, hBgu]
    exact routeTail_ok noFail stB (completeFields s body now) uid now2 q0 rfl rfl hBfind hval
  refine ⟨_, (addTimeUsed q0
      ((routeDuration (completeFields s body now) now2 : Nat) : Int)).1,
    hroute, ?_, ?_, ?_, ?_, ?_, ?_, ?_⟩
  · show alFind stB.sessions sid = some (completeFields s body now)
    rw [hBsess, hAsess]
    exact alFind_alSet_self _ _ _ _ hs
  · show alFind (alSet stB.profiles uid
      (addTimeUsed q0 ((routeDuration (completeFields s body now) now2 : Nat) : Int)).1) uid =
      some (addTimeUsed q0 ((routeDuration (completeFields s body now) now2 : Nat) : Int)).1
    exact alFind_alSet_self _ _ _ _ hBfind
  · show (addTimeUsed q0 _).1.knowledgePoints = p.knowledgePoints + body.score
    exact hq0kp
  · show q0.timeUsedToday +
      ((routeDuration (completeFields s body now) now2 : Nat) : Int) = _
    rw [hqused]
  · show q0.totalTimeSpent +
      ((routeDuration (completeFields s body now) now2 : Nat) : Int) = _
    rw [hqtot]
  · show stB.txns = _
    rw [hBtxns, hAtxns]
    rfl
  · show stB.timeLogs ++ _ = _
    rw [hBlogs, hAlogs]
    rfl

/-- C1: sequential exactly-once completion.  For every open session owned
by the calling child (with a schema-valid profile and non-negative score),
the first completion call succeeds, the child's balance reflects exactly
one award of the score with exactly one ledger entry appended, and a
second call with the same sessionId returns AlreadyCompleted and mutates
nothing. -/
theorem C1_complete_exactly_once (st : Store) (sid uid : Nat)
    (body body2 : CompleteBody) (now now2 now3 now4 : Nat)
    (s : GameSession) (p : ChildProfile)
    (hs : alFind st.sessions sid = some s)
    (howner : s.childId = uid)
    (hopen : s.isCompleted = false)
    (hp : alFind st.profiles uid = some p)
    (hscore : 0 ≤ body.score)
    (hpv : profileValid p = true) :
    (∃ d, (completeRoute noFail st sid uid body now now2).1 = .ok d) ∧
    (∃ q, alFind (completeRoute noFail st sid uid body now now2).2.profiles uid = some q ∧
      q.knowledgePoints = p.knowledgePoints + body.score) ∧
    (completeRoute noFail st sid uid body now now2).2.txns =
      st.txns ++ [{ childId := p.childId, points := body.score, reason := kpReason s.gameId }] ∧
    completeRoute noFail (completeRoute noFail st sid uid body now now2).2
        sid uid body2 now3 now4 =
      (.errAlreadyCompleted, (completeRoute noFail st sid uid body now now2).2) := by
  obtain ⟨stF, q, hrun, hsess, hfind, hkp, hused, htot, htxns, hlogs⟩ :=
    completeRoute_noFail_spec st sid uid body now now2 s p hs howner hopen hp hscore hpv
  rw [hrun]
  exact ⟨⟨_, rfl⟩, ⟨q, hfind, hkp⟩, htxns,
    completeRoute_alreadyCompleted noFail stF sid uid body2 now3 now4
      (completeFields s body now) hsess howner rfl⟩

/-- Witness for C1 at a concrete open session. -/
theorem C1_complete_exactly_once_witness :
    ∃ d, (completeRoute noFail c1Store 1 1 c1Body 60000 60000).1 = .ok d :=
  (C1_complete_exactly_once c1Store 1 1 c1Body c1Body 60000 60000 70000 70000
    c1Session c1Profile (by decide) (by decide) (by decide) (by decide)
    (by decide) (by decide)).1

/-- C6 counterexample: with only the time-debit save failing, the
completion route returns an error yet the points award persists while the
time is not debited and the ledger entry exists — partial state remains,
contradicting the claim that a failure partway leaves no partial state. -/
theorem C6_counterexample :
    (completeRoute c6Plan c6Store 1 1 c6Body 300000 300000).1 = .errInternal ∧
    (alFind (completeRoute c6Plan c6Store 1 1 c6Body 300000 300000).2.profiles 1).map
      (fun q => q.knowledgePoints) = some 10 ∧
    (alFind (completeRoute c6Plan c6Store 1 1 c6Body 300000 300000).2.profiles 1).map
      (fun q => q.timeUsedToday) = some 0 ∧
    (completeRoute c6Plan c6Store 1 1 c6Body 300000 300000).2 ≠ c6Store := by
  decide

/-- C6 (amended): the six completion steps are applied sequentially without
a transaction: when the time-debit save fails after the earlier steps
succeeded, the route reports an internal error but the already-persisted
effects remain — the session is marked completed, the points are awarded
and the ledger entry appended, while usedMinutesToday is unchanged. -/
theorem C6_partial_state (st : Store) (sid uid : Nat) (body : CompleteBody)
    (now now2 : Nat) (s : GameSession) (p : ChildProfile)
    (hs : alFind st.sessions sid = some s)
    (howner : s.childId = uid)
    (hopen : s.isCompleted = false)
    (hp : alFind st.profiles uid = some p)
    (hscore : 0 ≤ body.score)
    (hpv : profileValid p = true) :
    (completeRoute c6Plan st sid uid body now now2).1 = .errInternal ∧
    (∃ q, alFind (completeRoute c6Plan st sid uid body now now2).2.profiles uid = some q ∧
      q.knowledgePoints = p.knowledgePoints + body.score ∧
      q.timeUsedToday = p.timeUsedToday) ∧
    (completeRoute c6Plan st sid uid body now now2).2.txns =
      st.txns ++ [{ childId := p.childId, points := body.score, reason := kpReason s.gameId }] ∧
    alFind (completeRoute c6Plan st sid uid body now now2).2.sessions sid =
      some (completeFields s body now) := by
  obtain ⟨hpv1, hpv2, hpv3, hpv4⟩ := (profileValid_iff p).mp hpv
  have hsv : sessionValid (completeFields s body now) = true := by
    simp [sessionValid, completeFields, hscore]
  have hp1 : alFind
      ({ st with sessions := alSet st.sessions sid (completeFields s body now) } : Store).profiles
      (completeFields s body now).childId = some p := by
    show alFind st.profiles s.childId = some p
    rw [howner]; exact hp
  have hv1 : profileValid { p with
      knowledgePoints := p.knowledgePoints + (completeFields s body now).kpEarned } = true := by
    rw [profileValid_iff]
    refine ⟨?_, hpv2, hpv3, hpv4⟩
    show 0 ≤ p.knowledgePoints + body.score
    omega
  obtain ⟨stA, q0, hApu, hAsess, hAgames, hAlogs, hAtxns, hAfind,
    hqkp, hqcid, hqlim, hqused, hqtot, hqreset⟩ :=
    profileUpdates_ok c6Plan _ (completeFields s body now) p rfl rfl rfl rfl hp1 hv1
  obtain ⟨stB, hBgu, hBsess, hBprof, hBtxns, hBlogs⟩ :=
    gameUpdate_ok c6Plan stA (completeFields s body now) rfl
  have hBfind : alFind stB.profiles uid = some q0 := by
    rw [hBprof]
    have hcid : (completeFields s body now).childId = uid := howner
    rw [← hcid]; exact hAfind
  have hroute : completeRoute c6Plan st sid uid body now now2 = (.errInternal, stB) := by
    rw [completeRoute_entry c6Plan st sid uid body now now2 s hs howner hopen rfl hsv]
    simp only [hApu, hBgu]
    exact routeTail_failTime c6Plan stB (completeFields s body now) uid now2 q0 rfl hBfind
  rw [hroute]
  refine ⟨rfl, ⟨q0, hBfind, hqkp, hqused⟩, ?_, ?_⟩
  · show stB.txns = _
    rw [hBtxns, hAtxns]
    rfl
  · show alFind stB.sessions sid = _
    rw [hBsess, hAsess]
    exact alFind_alSet_self _ _ _ _ hs

/-- Witness for the amended C6 at the concrete partial-failure store. -/
theorem C6_partial_state_witness :
    (completeRoute c6Plan c6Store 1 1 c6Body 300000 300000).1 =
      CompleteOutcome.errInternal :=
  (C6_partial_state c6Store 1 1 c6Body 300000 300000 c6Session c6Profile
    (by decide) (by decide) (by decide) (by decide) (by decide) (by decide)).1

/-- C8 counterexample: a session completed 130 seconds (2 min 10 s) after
it started records a duration of 2 minutes (Math.round), not the 3 minutes
that rounding up to the next whole minute would give. -/
theorem C8_counterexample :
    (completeRoute noFail c8Store 1 1 c8Body 130000 130000).1 = .ok 2 ∧
    (completeRoute noFail c8Store 1 1 c8Body 130000 130000).2.timeLogs =
      [{ childId := 1, durationMinutes := 2, gameId := 5 }] ∧
    jsCeil60000 (130000 - c8Session.startTime) = 3 := by
  decide

/-- C8 (amended): the recorded duration equals completedAt − startedAt
rounded to the NEAREST whole minute (JS Math.round, half up); when that
value rounds to zero the route falls back to the ceiling of
(logging time − startedAt); recordUsage (addTimeUsed) and the TimeUsageLog
entry receive exactly that computed value. -/
theorem C8_duration_rounding (st : Store) (sid uid : Nat) (body : CompleteBody)
    (now now2 : Nat) (s : GameSession) (p : ChildProfile)
    (hs : alFind st.sessions sid = some s)
    (howner : s.childId = uid)
    (hopen : s.isCompleted = false)
    (hp : alFind st.profiles uid = some p)
    (hscore : 0 ≤ body.score)
    (hpv : profileValid p = true) :
    (completeRoute noFail st sid uid body now now2).1 =
      .ok (if jsRound60000 (now - s.startTime) ≠ 0 then jsRound60000 (now - s.startTime)
           else jsCeil60000 (now2 - s.startTime)) ∧
    (completeRoute noFail st sid uid body now now2).2.timeLogs =
      st.timeLogs ++
        [{ childId := uid
           durationMinutes := ((if jsRound60000 (now - s.startTime) ≠ 0
              then jsRound60000 (now - s.startTime)
              else jsCeil60000 (now2 - s.startTime) : Nat) : Int)
           gameId := s.gameId }] ∧
    (∃ q, alFind (completeRoute noFail st sid uid body now now2).2.profiles uid = some q ∧
      q.timeUsedToday = p.timeUsedToday + ((if jsRound60000 (now - s.startTime) ≠ 0
          then jsRound60000 (now - s.startTime)
          else jsCeil60000 (now2 - s.startTime) : Nat) : Int)) := by
  obtain ⟨stF, q, hrun, hsess, hfind, hkp, hused, htot, htxns, hlogs⟩ :=
    completeRoute_noFail_spec st sid uid body now now2 s p hs howner hopen hp hscore hpv
  have hdur : routeDuration (completeFields s body now) now2 =
      (if jsRound60000 (now - s.startTime) ≠ 0 then jsRound60000 (now - s.startTime)
       else jsCeil60000 (now2 - s.startTime)) := rfl
  rw [← hdur, hrun]
  exact ⟨rfl, hlogs, ⟨q, hfind, hused⟩⟩

/-- Witness for the amended C8 at the 130-second concrete session. -/
theorem C8_duration_rounding_witness :
    (completeRoute noFail c8Store 1 1 c8Body 130000 130000).1 =
      .ok (if jsRound60000 (130000 - c8Session.startTime) ≠ 0
           then jsRound60000 (130000 - c8Session.startTime)
           else jsCeil60000 (130000 - c8Session.startTime)) :=
  (C8_duration_rounding c8Store 1 1 c8Body 130000 130000 c8Session c8Profile
    (by decide) (by decide) (by decide) (by decide) (by decide) (by decide)).1

end PLP
